import Mathlib

/-!
Verification of the two command-line clients of hidenorly/aws_bedrock_playground
(src/claude3-cli.py and src/llm-review-claude3.py) against their natural-language
specification.

The development shallowly embeds the pure orchestration logic of the two Python
scripts:

* the streaming-response accumulation loop of `generate_message` (identical in
  both scripts) as a fold over a list of decoded chunks;
* the file-concatenation helper `files_reader` of each script (they differ:
  the generic client tests `os.path.isfile`, the review client tests
  `os.path.exists`) over an abstract file-system state;
* the prompt-file loader `read_prompt_json` and the flag-override /
  prompt-concatenation logic of the generic client's `__main__` block;
* the `try/except ClientError` shape of the `__main__` blocks.

Python-level partiality is made explicit: operations that can raise are
embedded as `Except PyErr`, where the `PyErr` constructors name the Python
exception classes that the corresponding operation raises (`TypeError` from
`os.path.isfile(None)` and from `None + str`, `PermissionError` and
`IsADirectoryError` from `open`, `json.JSONDecodeError` from `json.load`).
-/

/-- Status record assembled by `generate_message` from a `message_delta` chunk
(claude3-cli.py lines 86-90, llm-review-claude3.py lines 67-71):
`stop_reason` and `stop_sequence` may be JSON `null` (hence `Option`),
`output_tokens` is a count. -/
structure Status where
  stop_reason : Option String
  stop_sequence : Option String
  output_tokens : Nat
deriving DecidableEq

/-- Streamed response event, i.e. the JSON object `json.loads(event["chunk"]["bytes"])`
of claude3-cli.py line 83, flattened: `type` is the chunk discriminant,
`delta_type` is `chunk["delta"]["type"]`, `delta_text` is `chunk["delta"]["text"]`,
`delta_stop_reason` and `delta_stop_sequence` are the fields of `chunk["delta"]`
read on a `message_delta` chunk, and `usage_output_tokens` is
`chunk["usage"]["output_tokens"]`.  The loop reads each field only under the
same `type` guards as the Python dictionary accesses, so for chunks of other
discriminants the payload fields are unconstrained and never inspected. -/
structure Chunk where
  type : String
  delta_type : String
  delta_text : String
  delta_stop_reason : Option String
  delta_stop_sequence : Option String
  usage_output_tokens : Nat
deriving DecidableEq

/-- Body of the chunk loop of `generate_message` (claude3-cli.py lines 85-93,
llm-review-claude3.py lines 66-74): a `message_delta` chunk overwrites the
status record (the initial Python `{}` is embedded as `none`), and a
`content_block_delta` chunk whose `delta.type` is `text_delta` appends its text
fragment to the accumulated result. -/
def processChunk (acc : String × Option Status) (chunk : Chunk) : String × Option Status :=
  let result := acc.1
  let status := acc.2
  let status :=
    if chunk.type == "message_delta" then
      some { stop_reason := chunk.delta_stop_reason,
             stop_sequence := chunk.delta_stop_sequence,
             output_tokens := chunk.usage_output_tokens }
    else status
  let result :=
    if chunk.type == "content_block_delta" then
      if chunk.delta_type == "text_delta" then result ++ chunk.delta_text else result
    else result
  (result, status)

/-- Streaming consumption of `generate_message` (claude3-cli.py lines 64-95,
llm-review-claude3.py lines 45-76): starting from the empty result string and
the empty status dictionary, fold `processChunk` over the finite stream of
decoded response events, in order, and return the pair `(result, status)`. -/
def generate_message (events : List Chunk) : String × Option Status :=
  List.foldl processChunk ("", none) events

/-- Selector for the text fragment a chunk contributes: `some` of the fragment
for a `content_block_delta` chunk with `delta.type == text_delta`, `none`
otherwise.  Mirrors the guards of claude3-cli.py lines 91-92. -/
def textDeltaOf (chunk : Chunk) : Option String :=
  if chunk.type == "content_block_delta" && chunk.delta_type == "text_delta" then
    some chunk.delta_text
  else
    none

/-- Status record read off a `message_delta` chunk (claude3-cli.py lines 86-90). -/
def statusOf (chunk : Chunk) : Status :=
  { stop_reason := chunk.delta_stop_reason,
    stop_sequence := chunk.delta_stop_sequence,
    output_tokens := chunk.usage_output_tokens }

/-- Specification-side description of the final status: the fields of the last
chunk in the stream whose discriminant is `message_delta`, or `none` (the empty
Python dictionary) when there is no such chunk. -/
def finalStatus (events : List Chunk) : Option Status :=
  ((events.filter fun c => c.type == "message_delta").getLast?).map statusOf

/-- Chunk shapes that the loop of `generate_message` reacts to: a
`message_delta` chunk, or a `content_block_delta` chunk carrying a
`text_delta`.  Every other chunk leaves the accumulator untouched. -/
def recognizedChunk (c : Chunk) : Bool :=
  c.type == "message_delta" || (c.type == "content_block_delta" && c.delta_type == "text_delta")

/-- Scripted stream of spec section 8 item 5: two text fragments
"Hello, " and "world!" followed by one `message_delta` chunk with stop reason
`end_turn`, stop sequence `null` and five output tokens. -/
def helloStream : List Chunk :=
  [ { type := "content_block_delta", delta_type := "text_delta", delta_text := "Hello, ",
      delta_stop_reason := none, delta_stop_sequence := none, usage_output_tokens := 0 },
    { type := "content_block_delta", delta_type := "text_delta", delta_text := "world!",
      delta_stop_reason := none, delta_stop_sequence := none, usage_output_tokens := 0 },
    { type := "message_delta", delta_type := "", delta_text := "",
      delta_stop_reason := some "end_turn", delta_stop_sequence := none,
      usage_output_tokens := 5 } ]

/-- Single `message_delta` chunk used to instantiate the all-status-chunk stream
of spec section 8 item 6. -/
def mdOnlyChunk : Chunk :=
  { type := "message_delta", delta_type := "", delta_text := "",
    delta_stop_reason := some "max_tokens", delta_stop_sequence := none,
    usage_output_tokens := 7 }

theorem string_foldl_append_shift (l : List String) :
    ∀ a : String, l.foldl (fun r s => r ++ s) a = a ++ l.foldl (fun r s => r ++ s) "" := by
  induction l with
  | nil => intro a; simp
  | cons t ts ih =>
    intro a
    simp only [List.foldl_cons]
    rw [ih (a ++ t), ih ("" ++ t), String.empty_append, String.append_assoc]

theorem string_join_cons (t : String) (l : List String) :
    String.join (t :: l) = t ++ String.join l := by
  unfold String.join
  simp only [List.foldl_cons]
  rw [string_foldl_append_shift l ("" ++ t), String.empty_append]

theorem processChunk_fst (acc : String × Option Status) (c : Chunk) :
    (processChunk acc c).1 = acc.1 ++ ((textDeltaOf c).getD "") := by
  rcases acc with ⟨r, s⟩
  unfold processChunk textDeltaOf
  by_cases h1 : (c.type == "content_block_delta") = true
  · by_cases h2 : (c.delta_type == "text_delta") = true
    · simp [h1, h2]
    · simp [h1, h2]
  · simp [h1]

theorem processChunk_snd (acc : String × Option Status) (c : Chunk) :
    (processChunk acc c).2 = if c.type == "message_delta" then some (statusOf c) else acc.2 := by
  rcases acc with ⟨r, s⟩
  unfold processChunk statusOf
  by_cases h1 : (c.type == "message_delta") = true <;> simp [h1]

theorem foldl_processChunk_fst (events : List Chunk) :
    ∀ acc : String × Option Status,
      (List.foldl processChunk acc events).1
        = acc.1 ++ String.join (events.filterMap textDeltaOf) := by
  induction events with
  | nil => intro acc; simp [String.join]
  | cons c cs ih =>
    intro acc
    simp only [List.foldl_cons]
    rw [ih (processChunk acc c), processChunk_fst]
    cases htd : textDeltaOf c with
    | none => simp [htd, List.filterMap_cons]
    | some t => simp [htd, List.filterMap_cons, string_join_cons, String.append_assoc]

theorem foldl_processChunk_snd (events : List Chunk) :
    ∀ acc : String × Option Status,
      (List.foldl processChunk acc events).2
        = match finalStatus events with
          | some st => some st
          | none => acc.2 := by
  induction events using List.reverseRecOn with
  | nil => intro acc; simp [finalStatus]
  | append_singleton l c ih =>
    intro acc
    rw [List.foldl_append]
    simp only [List.foldl_cons, List.foldl_nil]
    rw [processChunk_snd]
    by_cases h1 : (c.type == "message_delta") = true
    · simp [h1, finalStatus, List.filter_append, List.filter_cons, List.getLast?_concat]
    · rw [if_neg h1]
      rw [ih acc]
      simp [finalStatus, List.filter_append, List.filter_cons, h1]

theorem processChunk_unrecognized (acc : String × Option Status) (c : Chunk)
    (h : recognizedChunk c = false) : processChunk acc c = acc := by
  rcases acc with ⟨r, s⟩
  cases hb1 : (c.type == "message_delta") <;>
    cases hb2 : (c.type == "content_block_delta") <;>
      cases hb3 : (c.delta_type == "text_delta") <;>
        simp [processChunk, recognizedChunk, hb1, hb2, hb3] at h ⊢

theorem foldl_processChunk_filter (events : List Chunk) :
    ∀ acc : String × Option Status,
      List.foldl processChunk acc events
        = List.foldl processChunk acc (events.filter recognizedChunk) := by
  induction events with
  | nil => intro acc; rfl
  | cons c cs ih =>
    intro acc
    by_cases h : recognizedChunk c = true
    · simp only [List.foldl_cons, List.filter_cons, h, if_true]
      exact ih (processChunk acc c)
    · have h' : recognizedChunk c = false := by
        cases hb : recognizedChunk c
        · rfl
        · exact absurd hb h
      simp only [List.foldl_cons, List.filter_cons, h', Bool.false_eq_true, if_false]
      rw [processChunk_unrecognized acc c h']
      exact ih acc

/-- C1: for every finite stream of response events consumed by
`generate_message`, the accumulated text equals the concatenation, in the order
received, of the text fields of exactly those chunks whose type is
`content_block_delta` with `delta.type == text_delta`; and the scripted stream
of spec section 8 item 5 yields the text "Hello, world!" together with
the status record with stop reason `end_turn`, stop sequence `null` and five
output tokens. -/
theorem generate_message_text_concat :
    (∀ events : List Chunk,
        (generate_message events).1 = String.join (events.filterMap textDeltaOf))
    ∧ generate_message helloStream
        = ("Hello, world!",
           some { stop_reason := some "end_turn", stop_sequence := none,
                  output_tokens := 5 }) := by
  constructor
  · intro events
    have h := foldl_processChunk_fst events ("", none)
    rw [String.empty_append] at h
    exact h
  · rfl

/-- C2: the status returned by `generate_message` is the record read off the
last `message_delta` chunk of the stream (each such chunk overwrites the
previous record) and is the empty record when no such chunk occurs; moreover a
nonempty stream consisting solely of `message_delta` chunks yields an empty
accumulated text together with a populated status. -/
theorem generate_message_final_status :
    (∀ events : List Chunk, (generate_message events).2 = finalStatus events)
    ∧ (∀ events : List Chunk, events ≠ [] →
        (∀ c ∈ events, c.type = "message_delta") →
        (generate_message events).1 = "" ∧ ((generate_message events).2).isSome = true) := by
  have hmain : ∀ events : List Chunk, (generate_message events).2 = finalStatus events := by
    intro events
    have h := foldl_processChunk_snd events ("", none)
    cases hfs : finalStatus events with
    | none => rw [hfs] at h; exact h
    | some st => rw [hfs] at h; exact h
  constructor
  · exact hmain
  · intro events hne hall
    constructor
    · have h := foldl_processChunk_fst events ("", none)
      rw [String.empty_append] at h
      have hnil : events.filterMap textDeltaOf = [] := by
        rw [List.filterMap_eq_nil_iff]
        intro c hc
        have hty := hall c hc
        unfold textDeltaOf
        have : (c.type == "content_block_delta") = false := by
          rw [hty]; rfl
        simp [this]
      rw [hnil] at h
      exact h
    · rw [hmain events]
      unfold finalStatus
      have hmap : ∀ o : Option Chunk, (o.map statusOf).isSome = o.isSome := by
        intro o; cases o <;> rfl
      rw [hmap]
      have hfilter : events.filter (fun c => c.type == "message_delta") = events := by
        rw [List.filter_eq_self]
        intro c hc
        rw [hall c hc]
        rfl
      rw [hfilter]
      rw [List.getLast?_isSome]
      exact hne

/-- Witness for the hypotheses of the second half of C2: the one-element
stream holding a single `message_delta` chunk yields empty text and a
populated status. -/
theorem generate_message_final_status_witness :
    (generate_message [mdOnlyChunk]).1 = ""
    ∧ ((generate_message [mdOnlyChunk]).2).isSome = true :=
  generate_message_final_status.2 [mdOnlyChunk] (by decide) (by decide)

/-- C8: chunks whose discriminant is neither `message_delta` nor
`content_block_delta`-with-`text_delta` do not affect the fold: consuming a
stream is the same as consuming its restriction to the two recognized chunk
shapes, so inserting or removing such chunks anywhere leaves both the text and
the status unchanged. -/
theorem generate_message_ignores_unrecognized (events : List Chunk) :
    generate_message events = generate_message (events.filter recognizedChunk) :=
  foldl_processChunk_filter events ("", none)

/-- Abstract state of one path in the file system, as far as the scripts can
observe it: the path names nothing, names a regular file (with a readability
bit and its UTF-8 decoded text content), or names a directory. -/
inductive FileState
  | absent
  | file (readable : Bool) (content : String)
  | dir
deriving DecidableEq

/-- Python exception classes raised by the embedded operations. -/
inductive PyErr
  | typeError
  | fileNotFoundError
  | permissionError
  | isADirectoryError
  | jsonDecodeError
deriving DecidableEq

deriving instance DecidableEq for Except

/-- Embedding of `os.path.isfile(path)`: true exactly when the path names an
existing regular file, regardless of its readability (claude3-cli.py line 27). -/
def os_path_isfile (fs : String → FileState) (path : String) : Bool :=
  match fs path with
  | FileState.file _ _ => true
  | _ => false

/-- Embedding of `os.path.exists(path)`: true exactly when the path names an
existing entry, file or directory (llm-review-claude3.py line 27). -/
def os_path_exists (fs : String → FileState) (path : String) : Bool :=
  match fs path with
  | FileState.absent => false
  | _ => true

/-- Embedding of `open(path, "r", encoding="UTF-8")` followed by `f.read()`:
returns the text of a readable regular file and otherwise raises the
corresponding Python exception (`PermissionError` on an existing file without
read permission, `IsADirectoryError` on a directory, `FileNotFoundError` on a
missing path). -/
def openRead (fs : String → FileState) (path : String) : Except PyErr String :=
  match fs path with
  | FileState.file true content => Except.ok content
  | FileState.file false _ => Except.error PyErr.permissionError
  | FileState.dir => Except.error PyErr.isADirectoryError
  | FileState.absent => Except.error PyErr.fileNotFoundError

namespace Cli

/-- Loop of `files_reader` of claude3-cli.py (lines 23-31), carrying the
accumulated `result` string: for each path, when `os.path.isfile(path)` holds
the file is opened and its whole content appended, and any exception raised by
`open` propagates; other paths are skipped. -/
def files_reader_go (fs : String → FileState) (result : String) :
    List String → Except PyErr String
  | [] => Except.ok result
  | path :: rest =>
    if os_path_isfile fs path then
      match openRead fs path with
      | Except.ok content => files_reader_go fs (result ++ content) rest
      | Except.error e => Except.error e
    else
      files_reader_go fs result rest

/-- Embedding of `files_reader(files)` of claude3-cli.py lines 23-31. -/
def files_reader (fs : String → FileState) (files : List String) : Except PyErr String :=
  files_reader_go fs "" files

end Cli

namespace Review

/-- Loop of `files_reader` of llm-review-claude3.py (lines 23-32): identical to
the generic variant except that the guard is `os.path.exists(path)`, so paths
naming existing non-regular entries such as directories are opened as well. -/
def files_reader_go (fs : String → FileState) (result : String) :
    List String → Except PyErr String
  | [] => Except.ok result
  | path :: rest =>
    if os_path_exists fs path then
      match openRead fs path with
      | Except.ok content => files_reader_go fs (result ++ content) rest
      | Except.error e => Except.error e
    else
      files_reader_go fs result rest

/-- Embedding of `files_reader(files)` of llm-review-claude3.py lines 23-32. -/
def files_reader (fs : String → FileState) (files : List String) : Except PyErr String :=
  files_reader_go fs "" files

end Review

/-- Embedding of the input-assembly dispatch of claude3-cli.py `__main__`
lines 112-116: when at least one positional argument is given, concatenate
the files with `files_reader`, otherwise read the whole standard input. -/
def additional_prompt (fs : String → FileState) (stdin : String)
    (args : List String) : Except PyErr String :=
  if args.length > 0 then Cli.files_reader fs args else Except.ok stdin

/-- Specification-side description of the assembled input: the concatenation,
in argument order, of the contents of exactly those candidate paths that name
existing readable regular files, every other path contributing nothing. -/
def readableConcat (fs : String → FileState) : List String → String
  | [] => ""
  | path :: rest =>
    (match fs path with
     | FileState.file true content => content
     | _ => "") ++ readableConcat fs rest

/-- Decidable side condition: the path does not name an existing regular file
that lacks read permission. -/
def notUnreadableFile : FileState → Bool
  | FileState.file false _ => false
  | _ => true

/-- File system fixture with two readable files and nothing else. -/
def fsTwoFiles : String → FileState := fun path =>
  if path == "a.txt" then FileState.file true "alpha"
  else if path == "b.txt" then FileState.file true "beta"
  else FileState.absent

/-- File system fixture with a single existing file that is not readable. -/
def fsSecret : String → FileState := fun path =>
  if path == "secret.txt" then FileState.file false "classified" else FileState.absent

/-- File system fixture with a single existing unreadable file, used for the
unreadable-file behaviour of both `files_reader` variants. -/
def fsLocked : String → FileState := fun path =>
  if path == "locked.txt" then FileState.file false "hidden" else FileState.absent

/-- File system fixture with a single directory entry. -/
def fsWithDir : String → FileState := fun path =>
  if path == "build" then FileState.dir else FileState.absent

theorem files_reader_go_concat (fs : String → FileState) (files : List String) :
    ∀ acc : String,
      (∀ p ∈ files, notUnreadableFile (fs p) = true) →
      Cli.files_reader_go fs acc files = Except.ok (acc ++ readableConcat fs files) := by
  induction files with
  | nil => intro acc h; simp [Cli.files_reader_go, readableConcat]
  | cons p ps ih =>
    intro acc h
    have hp := h p (List.mem_cons_self p ps)
    have hps : ∀ q ∈ ps, notUnreadableFile (fs q) = true :=
      fun q hq => h q (List.mem_cons_of_mem p hq)
    cases hfs : fs p with
    | absent =>
      rw [show Cli.files_reader_go fs acc (p :: ps) = Cli.files_reader_go fs acc ps by
        simp [Cli.files_reader_go, os_path_isfile, hfs]]
      rw [ih acc hps]
      simp [readableConcat, hfs]
    | dir =>
      rw [show Cli.files_reader_go fs acc (p :: ps) = Cli.files_reader_go fs acc ps by
        simp [Cli.files_reader_go, os_path_isfile, hfs]]
      rw [ih acc hps]
      simp [readableConcat, hfs]
    | file b content =>
      cases b with
      | false =>
        rw [hfs] at hp
        exact absurd hp (by simp [notUnreadableFile])
      | true =>
        rw [show Cli.files_reader_go fs acc (p :: ps)
              = Cli.files_reader_go fs (acc ++ content) ps by
          simp [Cli.files_reader_go, os_path_isfile, openRead, hfs]]
        rw [ih (acc ++ content) hps]
        simp [readableConcat, hfs, String.append_assoc]

/-- C3 (amended): provided no candidate path names an existing regular file
that lacks read permission, the input-assembly step returns the concatenation,
in argument order, of the contents of exactly those paths that name existing
readable files, with non-existing paths silently skipped wherever they occur;
and an empty candidate list returns the whole standard input instead.  (The
amendment is forced by `input_assembly_unreadable_counterexample`: on an
existing unreadable file, `open` raises and no concatenation is returned.) -/
theorem input_assembly_concat :
    (∀ (fs : String → FileState) (stdin : String) (files : List String),
        files ≠ [] →
        (∀ p ∈ files, notUnreadableFile (fs p) = true) →
        additional_prompt fs stdin files = Except.ok (readableConcat fs files))
    ∧ (∀ (fs : String → FileState) (stdin : String),
        additional_prompt fs stdin [] = Except.ok stdin) := by
  constructor
  · intro fs stdin files hne h
    have hlen : files.length > 0 := List.length_pos.mpr hne
    unfold additional_prompt
    rw [if_pos hlen]
    have hgo := files_reader_go_concat fs files "" h
    rw [String.empty_append] at hgo
    exact hgo
  · intro fs stdin
    rfl

/-- Witness for C3: two existing files with two missing paths interleaved
produce exactly the two contents, in order, and the missing paths contribute
nothing. -/
theorem input_assembly_concat_witness :
    additional_prompt fsTwoFiles "ignored" ["missing1", "a.txt", "missing2", "b.txt"]
      = Except.ok "alphabeta" :=
  input_assembly_concat.1 fsTwoFiles "ignored" ["missing1", "a.txt", "missing2", "b.txt"]
    (by decide) (by decide)

/-- Counterexample to C3 as stated: a candidate list holding one existing but
unreadable file makes the input-assembly step raise `PermissionError` instead
of returning the concatenation formula (which would be the empty string, the
unreadable file being excluded from the readable ones). -/
theorem input_assembly_unreadable_counterexample :
    additional_prompt fsSecret "" ["secret.txt"] = Except.error PyErr.permissionError
    ∧ ¬ (additional_prompt fsSecret "" ["secret.txt"]
          = Except.ok (readableConcat fsSecret ["secret.txt"])) := by
  decide

/-- C9 (amended): a candidate path naming an existing regular file that is not
readable makes both `files_reader` variants raise `PermissionError` (the
exception of `open` propagates to the caller); the file is not treated as
contributing empty text. -/
theorem unreadable_file_raises (fs : String → FileState) (path content : String)
    (rest : List String) (h : fs path = FileState.file false content) :
    Cli.files_reader fs (path :: rest) = Except.error PyErr.permissionError
    ∧ Review.files_reader fs (path :: rest) = Except.error PyErr.permissionError := by
  constructor
  · simp [Cli.files_reader, Cli.files_reader_go, os_path_isfile, openRead, h]
  · simp [Review.files_reader, Review.files_reader_go, os_path_exists, openRead, h]

/-- Witness for C9: on the fixture with one locked file both variants raise
`PermissionError`. -/
theorem unreadable_file_raises_witness :
    Cli.files_reader fsLocked ["locked.txt"] = Except.error PyErr.permissionError
    ∧ Review.files_reader fsLocked ["locked.txt"] = Except.error PyErr.permissionError :=
  unreadable_file_raises fsLocked "locked.txt" "hidden" [] (by decide)

/-- Counterexample to C9 as stated: an existing unreadable file does not
contribute empty text without error; `files_reader` raises instead. -/
theorem unreadable_not_empty_counterexample :
    Cli.files_reader fsLocked ["locked.txt"] = Except.error PyErr.permissionError
    ∧ ¬ (Cli.files_reader fsLocked ["locked.txt"] = Except.ok "") := by
  decide

theorem files_reader_go_agree (fs : String → FileState) (files : List String) :
    ∀ acc : String, (∀ p ∈ files, fs p ≠ FileState.dir) →
      Cli.files_reader_go fs acc files = Review.files_reader_go fs acc files := by
  induction files with
  | nil => intro acc h; rfl
  | cons p ps ih =>
    intro acc h
    have hp : fs p ≠ FileState.dir := h p (List.mem_cons_self p ps)
    have hps : ∀ q ∈ ps, fs q ≠ FileState.dir :=
      fun q hq => h q (List.mem_cons_of_mem p hq)
    cases hfs : fs p with
    | absent =>
      rw [show Cli.files_reader_go fs acc (p :: ps) = Cli.files_reader_go fs acc ps by
            simp [Cli.files_reader_go, os_path_isfile, hfs],
          show Review.files_reader_go fs acc (p :: ps) = Review.files_reader_go fs acc ps by
            simp [Review.files_reader_go, os_path_exists, hfs]]
      exact ih acc hps
    | dir => exact absurd hfs hp
    | file b content =>
      cases b with
      | true =>
        rw [show Cli.files_reader_go fs acc (p :: ps)
              = Cli.files_reader_go fs (acc ++ content) ps by
            simp [Cli.files_reader_go, os_path_isfile, openRead, hfs],
          show Review.files_reader_go fs acc (p :: ps)
              = Review.files_reader_go fs (acc ++ content) ps by
            simp [Review.files_reader_go, os_path_exists, openRead, hfs]]
        exact ih (acc ++ content) hps
      | false =>
        simp [Cli.files_reader_go, Review.files_reader_go, os_path_isfile,
              os_path_exists, openRead, hfs]

/-- C10 (amended): on any candidate sequence in which no path names a
directory (every path is either absent or an existing regular file), the
`files_reader` of claude3-cli.py and the `files_reader` of llm-review-claude3.py
return the same result.  (The amendment is forced by
`files_reader_variants_differ_counterexample`: on a directory the generic
variant skips while the review variant opens it and raises.) -/
theorem files_reader_variants_agree (fs : String → FileState) (files : List String)
    (h : ∀ p ∈ files, fs p ≠ FileState.dir) :
    Cli.files_reader fs files = Review.files_reader fs files :=
  files_reader_go_agree fs files "" h

/-- Witness for C10: the two variants agree on a sequence mixing an existing
file and a missing path. -/
theorem files_reader_variants_agree_witness :
    Cli.files_reader fsTwoFiles ["a.txt", "nope"]
      = Review.files_reader fsTwoFiles ["a.txt", "nope"] :=
  files_reader_variants_agree fsTwoFiles ["a.txt", "nope"] (by decide)

/-- Counterexample to C10 as stated: on a path naming a directory the generic
variant silently skips (its `os.path.isfile` guard is false) while the review
variant opens the directory and raises `IsADirectoryError`, so the two
functions disagree. -/
theorem files_reader_variants_differ_counterexample :
    Cli.files_reader fsWithDir ["build"] = Except.ok ""
    ∧ Review.files_reader fsWithDir ["build"] = Except.error PyErr.isADirectoryError
    ∧ ¬ (Cli.files_reader fsWithDir ["build"] = Review.files_reader fsWithDir ["build"]) := by
  decide

/-- Parsed content of a prompt JSON file: the two optional string keys that
`read_prompt_json` extracts (claude3-cli.py lines 41-44).  An absent key is
`none`, mirroring the Python `if "system_prompt" in _result` guards. -/
structure PromptJson where
  system_prompt : Option String
  user_prompt : Option String
deriving DecidableEq

/-- Embedding of `read_prompt_json(path)` of claude3-cli.py lines 34-46.  The
`path` argument is `args.promptfile`, whose argparse default is Python `None`,
hence `Option String` here: `os.path.isfile(None)` raises
`TypeError: stat: path should be string, bytes, os.PathLike or integer, not
NoneType` (the guard in genericpath only swallows `OSError` and `ValueError`),
so the `none` case is an error.  For a string path: a missing file yields
`(None, None)`; an existing file is opened (exceptions of `open` propagate),
parsed as JSON by `json.load` (`parseJson` returns `none` on malformed input,
embedding the propagating `json.JSONDecodeError`), and the two optional keys
are extracted. -/
def read_prompt_json (fs : String → FileState) (parseJson : String → Option PromptJson) :
    Option String → Except PyErr (Option String × Option String)
  | none => Except.error PyErr.typeError
  | some path =>
    if os_path_isfile fs path then
      match openRead fs path with
      | Except.error e => Except.error e
      | Except.ok content =>
        match parseJson content with
        | none => Except.error PyErr.jsonDecodeError
        | some j => Except.ok (j.system_prompt, j.user_prompt)
    else
      Except.ok (none, none)

/-- Flag-override step of claude3-cli.py lines 120-124: an explicitly supplied
flag value replaces the value loaded from the prompt file, an absent flag
leaves it. -/
def resolve_prompt (fileValue flagValue : Option String) : Option String :=
  match flagValue with
  | some v => some v
  | none => fileValue

/-- Prompt resolution of claude3-cli.py `__main__` lines 118-124: load the
prompt file and apply the two flag overrides. -/
def cli_resolved_prompts (fs : String → FileState)
    (parseJson : String → Option PromptJson)
    (promptfile flagSystem flagUser : Option String) :
    Except PyErr (Option String × Option String) :=
  match read_prompt_json fs parseJson promptfile with
  | Except.error e => Except.error e
  | Except.ok (fileSystem, fileUser) =>
      Except.ok (resolve_prompt fileSystem flagSystem, resolve_prompt fileUser flagUser)

/-- Embedding of Python string concatenation whose left operand may be `None`:
`None + "\n"` raises `TypeError: unsupported operand type(s) for +`. -/
def pyAddOpt (a : Option String) (b : String) : Except PyErr String :=
  match a with
  | some s => Except.ok (s ++ b)
  | none => Except.error PyErr.typeError

/-- Text of the single user message of the generic client: claude3-cli.py
`__main__` lines 112-126 and 151-160.  The assembled file/stdin content is
computed first (lines 112-116), the prompts are resolved (lines 118-124), and
line 126 computes `user_prompt + "\n" + additional_prompt`, which raises
`TypeError` when no user prompt was resolved; the result is the `text` field
of the one user message of lines 151-160. -/
def cli_user_message_text (fs : String → FileState)
    (parseJson : String → Option PromptJson) (stdin : String) (args : List String)
    (promptfile flagSystem flagUser : Option String) : Except PyErr String :=
  match additional_prompt fs stdin args with
  | Except.error e => Except.error e
  | Except.ok additional =>
    match cli_resolved_prompts fs parseJson promptfile flagSystem flagUser with
    | Except.error e => Except.error e
    | Except.ok (_, userPrompt) =>
      match pyAddOpt userPrompt "\n" with
      | Except.error e => Except.error e
      | Except.ok withNewline => Except.ok (withNewline ++ additional)

/-- Fixture: a prompt JSON file carrying only a `system_prompt` key, next to a
readable input file. -/
def fsPromptOnlySystem : String → FileState := fun path =>
  if path == "prompt.json" then FileState.file true "sys-only-json"
  else if path == "input.txt" then FileState.file true "some input"
  else FileState.absent

/-- Fixture parser: the prompt file content parses to a JSON object with only
the `system_prompt` key; everything else is malformed. -/
def parsePromptOnlySystem : String → Option PromptJson := fun content =>
  if content == "sys-only-json" then
    some { system_prompt := some "You are terse.", user_prompt := none }
  else none

/-- Outcome of the remote streaming call as observed by the `__main__` driver:
either the call (client construction plus `generate_message`) returns text and
status, or somewhere inside it the SDK raises `botocore.exceptions.ClientError`
carrying a message. -/
inductive RemoteOutcome
  | success (text : String) (status : Status)
  | clientError (message : String)

/-- Embedding of the `try/except ClientError` shape of claude3-cli.py
`__main__` lines 130-172 (llm-review-claude3.py lines 99-139 are identical in
this respect): the pair returned is the list of lines printed to standard
output and the process exit code.  On success the response text is printed
(line 165) and the script ends, exiting 0.  On a `ClientError` with message M
the handler prints `"A client error occured: " + format(M)` (line 171) and then
`print(str(status))` (line 172); `status` is still the Python `None` of line
130 because the only assignment to it (line 162) is the tuple-return of
`generate_message`, after which no `ClientError` can be raised any more, so the
second line is the string `"None"`; the handler then falls off the end of the
script, exiting 0 — no non-zero exit code is ever set. -/
def mainRun : RemoteOutcome → List String × Nat
  | RemoteOutcome.success text _ => ([text], 0)
  | RemoteOutcome.clientError message =>
      (["A client error occured: " ++ message, "None"], 0)

/-- C4: on a remote client error with message M the driver catches the
exception (`mainRun` is total on `clientError` outcomes, returning printed
lines rather than propagating), prints a line containing exactly M, then
prints the textual rendering of the still-`None` status variable, and the
process exit code is 0. -/
theorem client_error_caught (message : String) :
    (mainRun (RemoteOutcome.clientError message)).1
        = ["A client error occured: " ++ message, "None"]
    ∧ (mainRun (RemoteOutcome.clientError message)).2 = 0 :=
  ⟨rfl, rfl⟩

/-- C5 (code bug): with a base user prompt supplied the message text is the
base prompt, a newline, and the assembled content; but with no base user
prompt (no `--prompt` flag and a prompt file without a `user_prompt` key)
line 126 of claude3-cli.py computes `None + "\n"` and raises `TypeError`
instead of sending the content on its own. -/
theorem missing_user_prompt_type_error :
    cli_user_message_text fsPromptOnlySystem parsePromptOnlySystem "" ["input.txt"]
        (some "prompt.json") none (some "Base prompt")
      = Except.ok ("Base prompt" ++ "\n" ++ "some input")
    ∧ cli_user_message_text fsPromptOnlySystem parsePromptOnlySystem "" ["input.txt"]
        (some "prompt.json") none none
      = Except.error PyErr.typeError := by
  decide

/-- C6 (code bug): prompt loading on a string path naming a missing file
yields absent values without error, and on an existing well-formed JSON file
yields `none` for each absent key; but in the default case, where no
`--promptfile` flag is given and the path is Python `None`,
`os.path.isfile(None)` raises `TypeError` (outside any try block, claude3-cli.py
line 118), instead of yielding absent values. -/
theorem promptfile_default_type_error :
    read_prompt_json (fun _ => FileState.absent) (fun _ => none) none
      = Except.error PyErr.typeError
    ∧ read_prompt_json fsPromptOnlySystem parsePromptOnlySystem (some "nonexistent.json")
      = Except.ok (none, none)
    ∧ read_prompt_json fsPromptOnlySystem parsePromptOnlySystem (some "prompt.json")
      = Except.ok (some "You are terse.", none) := by
  decide

/-- C7: when the prompt file loads successfully, each explicitly supplied flag
value completely replaces the corresponding file value in the resolved prompts
(override, not merge), whether both flags or only one of them is supplied. -/
theorem flags_override_promptfile (fs : String → FileState)
    (parseJson : String → Option PromptJson) (promptfile : Option String)
    (fileSystem fileUser : Option String) (s u : String)
    (h : read_prompt_json fs parseJson promptfile = Except.ok (fileSystem, fileUser)) :
    cli_resolved_prompts fs parseJson promptfile (some s) (some u)
        = Except.ok (some s, some u)
    ∧ cli_resolved_prompts fs parseJson promptfile (some s) none
        = Except.ok (some s, fileUser)
    ∧ cli_resolved_prompts fs parseJson promptfile none (some u)
        = Except.ok (fileSystem, some u) := by
  unfold cli_resolved_prompts
  rw [h]
  exact ⟨rfl, rfl, rfl⟩

/-- Witness for C7: on the prompt-file fixture, flag values replace the file's
`system_prompt` and the absent `user_prompt`. -/
theorem flags_override_promptfile_witness :
    cli_resolved_prompts fsPromptOnlySystem parsePromptOnlySystem (some "prompt.json")
        (some "flag system") (some "flag user")
      = Except.ok (some "flag system", some "flag user")
    ∧ cli_resolved_prompts fsPromptOnlySystem parsePromptOnlySystem (some "prompt.json")
        (some "flag system") none
      = Except.ok (some "flag system", none)
    ∧ cli_resolved_prompts fsPromptOnlySystem parsePromptOnlySystem (some "prompt.json")
        none (some "flag user")
      = Except.ok (some "You are terse.", some "flag user") :=
  flags_override_promptfile fsPromptOnlySystem parsePromptOnlySystem (some "prompt.json")
    (some "You are terse.") none "flag system" "flag user" (by decide)
